import Mathlib

/-!
Shallow embedding of the paraforge mesh editor and GLB packer
(src/rust/src/lib.rs), together with the theorems that settle the claims
about geometry editing, packing and GLB serialization.

Modeling conventions:
* f64 coordinates are exact rationals; every concrete input exercised here
  uses values and operations (addition, multiplication, componentwise
  min / max, comparisons) that IEEE-754 doubles compute exactly.
* u32 indices are naturals; no claim exercises wrap-around.
* A Rust BTreeSet of u32 is a strictly increasing List of naturals;
  ascending iteration is the list order, descending iteration is the
  reversed list, and pop_first takes the head.
* A Rust HashMap is an insertion-ordered association list; the claims only
  depend on map contents, never on the arbitrary iteration order.
* Vec::swap_remove is swapRemove below; in Rust it panics when the index
  is out of bounds.  That panic is modeled at the FFI layer (ffiStep
  returns none) for the two operations whose claim is about the panic.
-/

namespace Paraforge

/-- Three f64 components, modeled as exact rationals. -/
abbrev V3 := ℚ × ℚ × ℚ

/-- Componentwise addition of vectors. -/
def add3 (u v : V3) : V3 := (u.1 + v.1, u.2.1 + v.2.1, u.2.2 + v.2.2)

/-- Componentwise multiplication (nalgebra component_mul). -/
def mul3 (u v : V3) : V3 := (u.1 * v.1, u.2.1 * v.2.1, u.2.2 * v.2.2)

/-- Componentwise minimum (nalgebra inf). -/
def inf3 (u v : V3) : V3 := (min u.1 v.1, min u.2.1 v.2.1, min u.2.2 v.2.2)

/-- Componentwise maximum (nalgebra sup). -/
def sup3 (u v : V3) : V3 := (max u.1 v.1, max u.2.1 v.2.1, max u.2.2 v.2.2)

/-- A triangle is a triple of u32 vertex indices ([u32; 3] in the source). -/
structure Tri where
  a : ℕ
  b : ℕ
  c : ℕ
deriving DecidableEq

/-- Whether a triangle references vertex index v (slice contains). -/
def triHas (t : Tri) (v : ℕ) : Bool := t.a = v || t.b = v || t.c = v

/-- Apply a reindexing function to each of the three slots of a triangle. -/
def triMap (f : ℕ → ℕ) (t : Tri) : Tri := ⟨f t.a, f t.b, f t.c⟩

/-- Insert into a strictly increasing list, keeping it sorted and
duplicate-free (BTreeSet::insert). -/
def insertSorted (x : ℕ) : List ℕ → List ℕ
  | [] => [x]
  | y :: ys =>
    if x < y then x :: y :: ys
    else if x = y then y :: ys
    else y :: insertSorted x ys

/-- Vec::swap_remove i: overwrite slot i with the last element and drop the
last slot.  For i = length - 1 this just drops the last element.  In Rust an
out-of-bounds index panics; internal callers always stay in bounds and the
FFI layer models the panic where a claim is about it. -/
def swapRemove (l : List α) (i : ℕ) : List α :=
  match l.getLast? with
  | none => []
  | some y => l.dropLast.set i y

/-- Vec::resize(n, 0): truncate or pad with zeros to length n. -/
def resizeTo (l : List ℕ) (n : ℕ) : List ℕ :=
  l.take n ++ List.replicate (n - l.length) 0

/-- Apply f to the last element of a list, if any. -/
def modifyLast (f : α → α) : List α → List α
  | [] => []
  | [x] => [f x]
  | x :: y :: ys => x :: modifyLast f (y :: ys)

/-- Error codes shared with the host (the subset reachable from the
embedded operations). -/
inductive ErrorCode where
  | Mutex
  | PointerTooLow
  | HandleOutOfBounds
  | NotInitialized
  | SizeOutOfBounds
  | UnicodeError
  | VtxOutOfBounds
  | TriOutOfBounds
deriving DecidableEq

/-- The mesh editor state: vertex array, triangle soup, ordered selection
set of vertex indices (Geometry in the source). -/
structure Geometry where
  vtcs : List V3
  tris : List Tri
  selection : List ℕ
deriving DecidableEq

namespace Geometry

/-- Geometry::new(): empty geometry, empty selection. -/
def new : Geometry := ⟨[], [], []⟩

/-- Geometry::cube(): 8 corner vertices at plus and minus 1 on each axis,
12 triangles, all 8 indices selected, exactly as listed in the source. -/
def cube : Geometry :=
  { vtcs := [(-1,  1, -1), (-1,  1,  1),
             (-1, -1, -1), (-1, -1,  1),
             ( 1,  1, -1), ( 1,  1,  1),
             ( 1, -1, -1), ( 1, -1,  1)]
    tris := [⟨1, 3, 5⟩, ⟨3, 7, 5⟩,
             ⟨4, 5, 6⟩, ⟨5, 7, 6⟩,
             ⟨0, 2, 1⟩, ⟨1, 2, 3⟩,
             ⟨0, 1, 4⟩, ⟨1, 5, 4⟩,
             ⟨2, 6, 3⟩, ⟨3, 6, 7⟩,
             ⟨0, 4, 2⟩, ⟨2, 4, 6⟩]
    selection := [0, 1, 2, 3, 4, 5, 6, 7] }

/-- Geometry::translate: add the translation to every selected vertex. -/
def translate (g : Geometry) (x y z : ℚ) : Geometry :=
  let vtcs := g.selection.foldl
    (fun vs i => vs.set i (add3 (vs.getD i (0, 0, 0)) (x, y, z))) g.vtcs
  { g with vtcs := vtcs }

/-- Geometry::flip_normals: for every triangle whose three vertices are all
selected, swap the first and last indices. -/
def flip_normals (g : Geometry) : Geometry :=
  let tris := g.tris.map (fun t =>
    if t.a ∈ g.selection ∧ t.b ∈ g.selection ∧ t.c ∈ g.selection then
      ⟨t.c, t.b, t.a⟩
    else t)
  { g with tris := tris }

/-- Geometry::scale: componentwise multiply every selected vertex; if an odd
number of factors is negative, additionally flip normals. -/
def scale (g : Geometry) (x y z : ℚ) : Geometry :=
  let vtcs := g.selection.foldl
    (fun vs i => vs.set i (mul3 (vs.getD i (0, 0, 0)) (x, y, z))) g.vtcs
  let g1 : Geometry := { g with vtcs := vtcs }
  let minusSigns := (if x < 0 then 1 else 0) + (if y < 0 then 1 else 0)
    + (if z < 0 then 1 else 0)
  if minusSigns % 2 = 1 then g1.flip_normals else g1

/-- Geometry::select: replace the selection with every vertex strictly inside
the bounding box of the two points, widened by 1e-6 on each axis. -/
def select (g : Geometry) (b1 b2 : V3) : Geometry :=
  let ε : V3 := (1/1000000, 1/1000000, 1/1000000)
  let lo := add3 (inf3 b1 b2) (-ε.1, -ε.2.1, -ε.2.2)
  let hi := add3 (sup3 b1 b2) ε
  let selection := (List.range g.vtcs.length).filter (fun i =>
    let v := g.vtcs.getD i (0, 0, 0)
    lo.1 < v.1 ∧ v.1 < hi.1 ∧ lo.2.1 < v.2.1 ∧ v.2.1 < hi.2.1 ∧
    lo.2.2 < v.2.2 ∧ v.2.2 < hi.2.2)
  { g with selection := selection }

/-- Geometry::create_vtx: append a vertex; selection unchanged. -/
def create_vtx (g : Geometry) (v : V3) : Geometry :=
  { g with vtcs := g.vtcs ++ [v] }

/-- Inner loop of Geometry::delete_vtx: while i < tris.len(), swap_remove
triangle i when it references vtx, else advance i.  Written with structural
fuel so that the kernel can evaluate it; 2 * tris.length steps always
suffice (every step shrinks the list or advances the cursor). -/
def removeTrisAux (v : ℕ) : ℕ → List Tri → ℕ → List Tri
  | 0, tris, _ => tris
  | fuel + 1, tris, i =>
    if h : i < tris.length then
      if triHas (tris.get ⟨i, h⟩) v then removeTrisAux v fuel (swapRemove tris i) i
      else removeTrisAux v fuel tris (i + 1)
    else tris

/-- Delete every triangle referencing vertex v, by repeated swap_remove
exactly as the source loop does. -/
def removeTrisContaining (tris : List Tri) (v : ℕ) : List Tri :=
  removeTrisAux v (2 * tris.length) tris 0

/-- Geometry::delete_vtx: swap-remove the vertex, delete triangles that
referenced it, redirect references to the swapped-from index (the old last
index) to vtx, and update the selection: the swapped-from index is always
removed and vtx is selected afterwards iff the swapped-from index was. -/
def delete_vtx (g : Geometry) (vtx : ℕ) : Geometry :=
  let vtcs := swapRemove g.vtcs vtx
  let swapped := vtcs.length
  let tris1 := removeTrisContaining g.tris vtx
  let tris2 := tris1.map (triMap (fun j => if j = swapped then vtx else j))
  let selection :=
    if swapped ∈ g.selection then
      insertSorted vtx (g.selection.filter (· ≠ swapped))
    else g.selection.filter (· ≠ vtx)
  ⟨vtcs, tris2, selection⟩

/-- Geometry::delete_vtcs: delete each vertex of a snapshot of the selection
in descending order. -/
def delete_vtcs (g : Geometry) : Geometry :=
  g.selection.reverse.foldl delete_vtx g

/-- Geometry::create_tri: fail with VtxOutOfBounds when any index is not
below len(vtcs), checking the three slots in order; otherwise append. -/
def create_tri (g : Geometry) (t : Tri) : Except ErrorCode Geometry :=
  if g.vtcs.length ≤ t.a then .error .VtxOutOfBounds
  else if g.vtcs.length ≤ t.b then .error .VtxOutOfBounds
  else if g.vtcs.length ≤ t.c then .error .VtxOutOfBounds
  else .ok { g with tris := g.tris ++ [t] }

/-- Geometry::delete_tri: swap-remove triangle i; selection untouched. -/
def delete_tri (g : Geometry) (i : ℕ) : Geometry :=
  { g with tris := swapRemove g.tris i }

/-- Geometry::delete_tris: walk triangle indices downward from the original
count and delete each triangle whose three vertices are all selected. -/
def delete_tris (g : Geometry) : Geometry :=
  List.foldl (fun g i =>
    let t := g.tris.getD i ⟨0, 0, 0⟩
    if t.a ∈ g.selection ∧ t.b ∈ g.selection ∧ t.c ∈ g.selection then
      g.delete_tri i
    else g) g (List.range g.tris.length).reverse

/-- Geometry::delete_stray_vtcs, verbatim: the loop ranges over
vtcs.len()..0, which is empty, and its body would delete a vertex when it
IS used by a triangle.  List.range' start count with count = 0 - len = 0
mirrors the empty Rust range. -/
def delete_stray_vtcs (g : Geometry) : Geometry :=
  (List.range' g.vtcs.length (0 - g.vtcs.length)).foldl (fun g vtx =>
    let used := g.tris.any (fun t => triHas t vtx)
    if used then g.delete_vtx vtx else g) g

/-- Geometry::merge: pop the smallest selected index t, move its vertex to
the target location, redirect every still-selected index inside a triangle
to t, delete the remaining selected vertices, and end with selection {t}. -/
def merge (g : Geometry) (location : V3) : Geometry :=
  match g.selection with
  | [] => g
  | t :: rest =>
    let g1 : Geometry :=
      { vtcs := g.vtcs.set t location
        tris := g.tris.map (triMap (fun v => if v ∈ rest then t else v))
        selection := rest }
    let g2 := g1.delete_vtcs
    { g2 with selection := [t] }

/-- Geometry::doubleside: append a reversed copy of every triangle whose
three vertices are all selected. -/
def doubleside (g : Geometry) : Geometry :=
  let copies := (g.tris.filter (fun t =>
    t.a ∈ g.selection ∧ t.b ∈ g.selection ∧ t.c ∈ g.selection)).map
    (fun t => (⟨t.c, t.b, t.a⟩ : Tri))
  { g with tris := g.tris ++ copies }

/-- Geometry::copy: duplicate every selected vertex, append a remapped copy
of every triangle whose three vertices are all selected, and select the
duplicates. -/
def copy (g : Geometry) : Geometry :=
  let n := g.vtcs.length
  let mapping : List (ℕ × ℕ) := g.selection.enum.map (fun p => (p.2, n + p.1))
  let vtcs := g.vtcs ++ g.selection.map (fun v => g.vtcs.getD v (0, 0, 0))
  let copied := g.tris.filterMap (fun t =>
    match List.lookup t.a mapping, List.lookup t.b mapping,
        List.lookup t.c mapping with
    | some t0, some t1, some t2 => some (⟨t0, t1, t2⟩ : Tri)
    | _, _, _ => none)
  let selection := mapping.foldl (fun s p => insertSorted p.2 s) []
  ⟨vtcs, g.tris ++ copied, selection⟩

/-- Edge bookkeeping of Geometry::extrude: mark an already-seen edge (in
either direction) as interior, otherwise record it as a boundary edge. -/
def edgeUpd (edges : List ((ℕ × ℕ) × Bool)) (e : ℕ × ℕ) :
    List ((ℕ × ℕ) × Bool) :=
  if (List.lookup e edges).isSome then
    edges.map (fun p => if p.1 = e then (p.1, false) else p)
  else if (List.lookup (e.2, e.1) edges).isSome then
    edges.map (fun p => if p.1 = (e.2, e.1) then (p.1, false) else p)
  else edges ++ [(e, true)]

/-- Geometry::extrude: copy each selected vertex displaced by d; for each
triangle with all vertices selected, record its edges and either (all
selected) reverse it in place and append the mapped copy, or (partial
selection) overwrite it with the mapped triple; then bridge every boundary
edge with two side-wall triangles; select the displaced copies. -/
def extrude (g : Geometry) (d : V3) : Geometry :=
  let allSelected := g.selection.length = g.vtcs.length
  let n := g.vtcs.length
  let mapping : List (ℕ × ℕ) := g.selection.enum.map (fun p => (p.2, n + p.1))
  let vtcs := g.vtcs ++
    g.selection.map (fun v => add3 (g.vtcs.getD v (0, 0, 0)) d)
  let stepTri := fun (st : List Tri × List ((ℕ × ℕ) × Bool)) (i : ℕ) =>
    let t := st.1.getD i ⟨0, 0, 0⟩
    match List.lookup t.a mapping, List.lookup t.b mapping,
        List.lookup t.c mapping with
    | some t0, some t1, some t2 =>
      let edges := edgeUpd (edgeUpd (edgeUpd st.2 (t.a, t.b)) (t.b, t.c))
        (t.c, t.a)
      if allSelected then
        ((st.1.set i ⟨t.b, t.a, t.c⟩) ++ [⟨t0, t1, t2⟩], edges)
      else
        (st.1.set i ⟨t0, t1, t2⟩, edges)
    | _, _, _ => st
  let st := (List.range g.tris.length).foldl stepTri (g.tris, [])
  let walls := st.2.foldl (fun acc p =>
    if p.2 then
      acc ++ [⟨p.1.1, p.1.2, (List.lookup p.1.2 mapping).getD 0⟩,
              ⟨p.1.1, (List.lookup p.1.2 mapping).getD 0,
               (List.lookup p.1.1 mapping).getD 0⟩]
    else acc) []
  let selection := mapping.foldl (fun s p => insertSorted p.2 s) []
  ⟨vtcs, st.1 ++ walls, selection⟩

/-- Geometry::add_square: append 4 coplanar vertices (x outer loop, y inner)
and 2 triangles; the selection becomes the 4 new indices. -/
def add_square (g : Geometry) (unit : Bool) : Geometry :=
  let off := g.vtcs.length
  let lb : ℚ := if unit then 0 else -1
  { vtcs := g.vtcs ++ [(lb, lb, 0), (lb, 1, 0), (1, lb, 0), (1, 1, 0)]
    tris := g.tris ++ [⟨off + 2, off + 1, off⟩, ⟨off + 1, off + 2, off + 3⟩]
    selection := [off, off + 1, off + 2, off + 3] }

/-- Geometry::add_cube: append 8 corner vertices (x, then y, then z loops)
and 12 triangles built from the three axis permutations; the selection
becomes the 8 new indices. -/
def add_cube (g : Geometry) (unit : Bool) : Geometry :=
  let off := g.vtcs.length
  let lb : ℚ := if unit then 0 else -1
  let face := fun (a0 a1 a2 : ℕ) =>
    let s0 := off; let s1 := off + a0; let s2 := off + a1
    let s3 := off + a0 + a1
    [(⟨s0, s1, s2⟩ : Tri), ⟨s3, s2, s1⟩,
     ⟨s2 + a2, s1 + a2, s0 + a2⟩, ⟨s1 + a2, s2 + a2, s3 + a2⟩]
  { vtcs := g.vtcs ++ [(lb, lb, lb), (lb, lb, 1), (lb, 1, lb), (lb, 1, 1),
      (1, lb, lb), (1, lb, 1), (1, 1, lb), (1, 1, 1)]
    tris := g.tris ++ face 1 2 4 ++ face 2 4 1 ++ face 4 1 2
    selection := [off, off + 1, off + 2, off + 3, off + 4, off + 5,
      off + 6, off + 7] }

/-- Geometry::set_vtx body used by the FFI wrapper. -/
def set_vtx (g : Geometry) (i : ℕ) (v : V3) : Geometry :=
  { g with vtcs := g.vtcs.set i v }

/-- Geometry::set_tri body used by the FFI wrapper: overwrite triangle i.
Note that no bound on the three vertex indices is checked anywhere. -/
def set_tri (g : Geometry) (i : ℕ) (t : Tri) : Geometry :=
  { g with tris := g.tris.set i t }

end Geometry

/-- Number of binary digits of n, with structural fuel (fuel n always
suffices since n has at most n digits). -/
def bitLenAux : ℕ → ℕ → ℕ
  | 0, _ => 0
  | fuel + 1, n => if n = 0 then 0 else bitLenAux fuel (n / 2) + 1

/-- Number of binary digits of n. -/
def bitLen (n : ℕ) : ℕ := bitLenAux n n

/-- Floor of the base-2 logarithm of a positive rational. -/
def qlog2 (q : ℚ) : ℤ :=
  let e : ℤ := (bitLen q.num.natAbs : ℤ) - (bitLen q.den : ℤ)
  if (2 : ℚ) ^ e ≤ q then e else e - 1

/-- Round a rational to the nearest integer, ties to even (the IEEE-754
default rounding). -/
def rndHalfEven (q : ℚ) : ℤ :=
  let f := ⌊q⌋
  let r := q - f
  if r < 1 / 2 then f
  else if 1 / 2 < r then f + 1
  else if f % 2 = 0 then f else f + 1

/-- IEEE-754 binary32 bit pattern nearest to q (round to nearest, ties to
even); models the Rust cast to f32 followed by raw byte reinterpretation.
Overflow maps to the infinity pattern and tiny values to subnormals. -/
def f32_bits (q : ℚ) : ℕ :=
  if q = 0 then 0
  else
    let s : ℕ := if q < 0 then 2 ^ 31 else 0
    let a : ℚ := |q|
    let e : ℤ := qlog2 a
    if e ≤ -127 then
      let m := (rndHalfEven (a * 2 ^ (149 : ℤ))).toNat
      if 2 ^ 23 ≤ m then s + 2 ^ 23 else s + m
    else if 128 ≤ e then s + 255 * 2 ^ 23
    else
      let m := (rndHalfEven (a * 2 ^ (23 - e))).toNat
      if m = 2 ^ 24 then
        if e = 127 then s + 255 * 2 ^ 23
        else s + (e + 128).toNat * 2 ^ 23
      else s + (e + 127).toNat * 2 ^ 23 + (m - 2 ^ 23)

/-- Exact rational value of the binary32 nearest to q; used for the packed
min and max bounds.  The infinity pattern is represented by 2^128. -/
def f32val (q : ℚ) : ℚ :=
  let b := f32_bits q
  let sgn : ℚ := if b / 2 ^ 31 = 1 then -1 else 1
  let ef : ℕ := b / 2 ^ 23 % 2 ^ 8
  let m : ℕ := b % 2 ^ 23
  if ef = 0 then sgn * (m : ℚ) * (2 : ℚ) ^ (-(149 : ℤ))
  else if ef = 255 then sgn * 2 ^ (128 : ℕ)
  else sgn * ((2 : ℚ) ^ 23 + (m : ℚ)) * (2 : ℚ) ^ ((ef : ℤ) - 150)

/-- Four little-endian bytes of a u32 value. -/
def u32le (n : ℕ) : List ℕ :=
  [n % 256, n / 2 ^ 8 % 256, n / 2 ^ 16 % 256, n / 2 ^ 24 % 256]

/-- Little-endian bytes of the binary32 encoding of q. -/
def f32LeBytes (q : ℚ) : List ℕ := u32le (f32_bits q)

/-- Geometry::vtcs_raw serialized to bytes: three little-endian f32
components per vertex, each cast from the stored f64. -/
def vtcs_raw_bytes (g : Geometry) : List ℕ :=
  g.vtcs.flatMap
    (fun v => f32LeBytes v.1 ++ f32LeBytes v.2.1 ++ f32LeBytes v.2.2)

/-- Geometry::tris_raw serialized to bytes: little-endian u16 indices when
len(vtcs) < 2^16, otherwise little-endian u32 indices. -/
def tris_raw_bytes (g : Geometry) : List ℕ :=
  g.tris.flatMap (fun t =>
    if g.vtcs.length < 2 ^ 16 then
      [t.a % 256, t.a / 2 ^ 8 % 256, t.b % 256, t.b / 2 ^ 8 % 256,
       t.c % 256, t.c / 2 ^ 8 % 256]
    else u32le t.a ++ u32le t.b ++ u32le t.c)

/-- glTF accessor component types. -/
inductive ComponentType where
  | U8 | I8 | U16 | I16 | U32 | F32
deriving DecidableEq

/-- glTF accessor types. -/
inductive AccType where
  | Scalar | Vec2 | Vec3 | Vec4 | Mat2 | Mat3 | Mat4
deriving DecidableEq

/-- Components per accessor element (component_count in the source). -/
def component_count : AccType → ℕ
  | .Scalar => 1
  | .Vec2 => 2
  | .Vec3 => 3
  | .Vec4 => 4
  | .Mat2 => 4
  | .Mat3 => 9
  | .Mat4 => 16

/-- Bytes per component (byte_count in the source). -/
def byte_count : ComponentType → ℕ
  | .U8 => 1
  | .I8 => 1
  | .U16 => 2
  | .I16 => 2
  | .U32 => 4
  | .F32 => 4

/-- Geometry::tris_raw_component_type: U16 below 2^16 vertices, else U32. -/
def Geometry.tris_raw_component_type (g : Geometry) : ComponentType :=
  if g.vtcs.length < 2 ^ 16 then .U16 else .U32

/-- glTF buffer view targets. -/
inductive BufTarget where
  | ArrayBuffer | ElementArrayBuffer
deriving DecidableEq

/-- glTF buffer (only the running byteLength is relevant). -/
structure GltfBuffer where
  byteLength : ℕ
deriving DecidableEq

/-- glTF buffer view. -/
structure BufferView where
  buffer : ℕ
  byteLength : ℕ
  byteOffset : ℕ
  target : Option BufTarget
deriving DecidableEq

/-- glTF accessor; min and max are componentwise f32 bounds when set. -/
structure Accessor where
  bufferView : Option ℕ
  type_ : AccType
  componentType : ComponentType
  count : ℕ
  min : Option (List ℚ)
  max : Option (List ℚ)
deriving DecidableEq

/-- glTF scene: a name and root node handles. -/
structure GltfScene where
  name : Option (List ℕ)
  nodes : List ℕ
deriving DecidableEq

/-- glTF node, with names as UTF-8 byte lists and f32 fields as rationals. -/
structure GltfNode where
  name : Option (List ℕ)
  mesh : Option ℕ
  children : Option (List ℕ)
  translation : Option (ℚ × ℚ × ℚ)
  rotation : Option (ℚ × ℚ × ℚ × ℚ)
  scale : Option (ℚ × ℚ × ℚ)
  matrix : Option (List ℚ)
deriving DecidableEq

/-- glTF mesh primitive: POSITION attribute, indices and material handles. -/
structure Prim where
  position : ℕ
  indices : Option ℕ
  material : Option ℕ
deriving DecidableEq

/-- glTF mesh. -/
structure GltfMesh where
  name : Option (List ℕ)
  primitives : List Prim
deriving DecidableEq

/-- glTF material (name plus PBR factors, already cast to f32). -/
structure GltfMaterial where
  name : Option (List ℕ)
  baseColorFactor : ℚ × ℚ × ℚ × ℚ
  metallicFactor : ℚ
  roughnessFactor : ℚ
deriving DecidableEq

/-- The scene document (gltf_json::Root), restricted to the fields the
embedded operations touch. -/
structure Root where
  generator : Option (List ℕ)
  minVersion : Option (List ℕ)
  scene : Option ℕ
  scenes : List GltfScene
  nodes : List GltfNode
  meshes : List GltfMesh
  materials : List GltfMaterial
  accessors : List Accessor
  bufferViews : List BufferView
  buffers : List GltfBuffer
deriving DecidableEq

/-- Two accessor handles produced by packing a geometry. -/
structure PackedGeometry where
  vtx_buffer : ℕ
  tri_buffer : ℕ
deriving DecidableEq

/-- append_to_glb_bin: extend the binary blob with the byte stream, grow
buffers[0].byteLength, push one buffer view (ArrayBuffer target, offset at
the pre-append blob length) and one accessor with count derived from the
byte count (min and max left unset, overwritten by the caller). -/
def append_to_glb_bin (bin : List ℕ) (root : Root) (bytes : List ℕ)
    (type_ : AccType) (ct : ComponentType) : List ℕ × Root :=
  let bin' := bin ++ bytes
  let buffers := root.buffers.set 0
    ⟨(root.buffers.getD 0 ⟨0⟩).byteLength + bytes.length⟩
  let bv : BufferView :=
    ⟨0, bytes.length, bin'.length - bytes.length, some .ArrayBuffer⟩
  let acc : Accessor := ⟨some root.bufferViews.length, type_, ct,
    bytes.length / component_count type_ / byte_count ct, none, none⟩
  (bin', { root with
    buffers := buffers
    bufferViews := root.bufferViews ++ [bv]
    accessors := root.accessors ++ [acc] })

/-- f32::MAX as an exact rational. -/
def f32MAX : ℚ := (2 ^ 24 - 1) * 2 ^ 104

/-- Geometry::pack: compute f32 componentwise bounds over the vertices,
append the positions stream (then set min, max and the ArrayBuffer target on
the newest accessor and view), append the index stream (ElementArrayBuffer
target), and return the two newest accessor handles. -/
def Geometry.pack (g : Geometry) (bin : List ℕ) (root : Root) :
    List ℕ × Root × PackedGeometry :=
  let minv := g.vtcs.foldl
    (fun m v => inf3 m (f32val v.1, f32val v.2.1, f32val v.2.2))
    (f32MAX, f32MAX, f32MAX)
  let maxv := g.vtcs.foldl
    (fun m v => sup3 m (f32val v.1, f32val v.2.1, f32val v.2.2))
    (-f32MAX, -f32MAX, -f32MAX)
  let p1 := append_to_glb_bin bin root (vtcs_raw_bytes g) .Vec3 .F32
  let accessors1 := modifyLast (fun a => { a with
    min := some [minv.1, minv.2.1, minv.2.2]
    max := some [maxv.1, maxv.2.1, maxv.2.2] }) p1.2.accessors
  let views1 := modifyLast
    (fun v => { v with target := some .ArrayBuffer }) p1.2.bufferViews
  let root1 := { p1.2 with accessors := accessors1, bufferViews := views1 }
  let p2 := append_to_glb_bin p1.1 root1 (tris_raw_bytes g) .Scalar
    g.tris_raw_component_type
  let views2 := modifyLast
    (fun v => { v with target := some .ElementArrayBuffer }) p2.2.bufferViews
  let root2 := { p2.2 with bufferViews := views2 }
  (p2.1, root2, ⟨root2.accessors.length - 2, root2.accessors.length - 1⟩)

/-- ASCII bytes of the generator string emg v0.1.0. -/
def generatorBytes : List ℕ := [101, 109, 103, 32, 118, 48, 46, 49, 46, 48]

/-- ASCII bytes of the version string 2.0. -/
def minVersionBytes : List ℕ := [50, 46, 48]

/-- ASCII bytes of the default scene name from init. -/
def sceneNameBytes : List ℕ :=
  [65, 32, 110, 97, 109, 101, 32, 102, 111, 114, 32, 97, 32, 115, 99, 101,
   110, 101]

/-- The scene document created by init: generator and minVersion set, one
empty buffer (handle 0), one named scene (handle 0) chosen as default. -/
def initRoot : Root :=
  { generator := some generatorBytes
    minVersion := some minVersionBytes
    scene := some 0
    scenes := [⟨some sceneNameBytes, []⟩]
    nodes := []
    meshes := []
    materials := []
    accessors := []
    bufferViews := []
    buffers := [⟨0⟩] }

/-- Whether a byte is a UTF-8 continuation byte. -/
def isUtf8Cont (b : ℕ) : Bool := decide (128 ≤ b ∧ b < 192)

/-- Strict UTF-8 validity of a byte list (String::from_utf8 succeeds):
rejects overlong forms, surrogates and code points above U+10FFFF. -/
def utf8Valid : List ℕ → Bool
  | [] => true
  | b :: r =>
    if b < 128 then utf8Valid r
    else
      match r with
      | [] => false
      | b1 :: r1 =>
        if 194 ≤ b ∧ b ≤ 223 then isUtf8Cont b1 && utf8Valid r1
        else
          match r1 with
          | [] => false
          | b2 :: r2 =>
            if b = 224 then
              decide (160 ≤ b1 ∧ b1 < 192) && isUtf8Cont b2 && utf8Valid r2
            else if (225 ≤ b ∧ b ≤ 236) ∨ b = 238 ∨ b = 239 then
              isUtf8Cont b1 && isUtf8Cont b2 && utf8Valid r2
            else if b = 237 then
              decide (128 ≤ b1 ∧ b1 < 160) && isUtf8Cont b2 && utf8Valid r2
            else
              match r2 with
              | [] => false
              | b3 :: r3 =>
                if b = 240 then
                  decide (144 ≤ b1 ∧ b1 < 192) && isUtf8Cont b2 &&
                    isUtf8Cont b3 && utf8Valid r3
                else if 241 ≤ b ∧ b ≤ 243 then
                  isUtf8Cont b1 && isUtf8Cont b2 && isUtf8Cont b3 &&
                    utf8Valid r3
                else if b = 244 then
                  decide (128 ≤ b1 ∧ b1 < 144) && isUtf8Cont b2 &&
                    isUtf8Cont b3 && utf8Valid r3
                else false

/-- get_string_transport: read scratch buffer 0..3 as UTF-8, failing with
HandleOutOfBounds or UnicodeError; no state is mutated. -/
def get_string_transport (bufs : List (List ℕ)) (handle : ℕ) :
    Except ErrorCode (List ℕ) :=
  if 4 ≤ handle then .error .HandleOutOfBounds
  else if utf8Valid (bufs.getD handle []) then .ok (bufs.getD handle [])
  else .error .UnicodeError

/-- Padding needed to reach a multiple of 4 bytes. -/
def pad4 (n : ℕ) : ℕ := (4 - n % 4) % 4

/-- serialize: emit the GLB container for the given serialized-JSON bytes
and binary blob: 12-byte header (glTF magic, version 2, total length), the
JSON chunk padded with 0x20, and - only when the blob is non-empty - the
BIN chunk padded with 0x00.  Chunk length fields exclude the 8-byte chunk
headers and include padding; the total length includes everything. -/
def serializeGLB (json bin : List ℕ) : List ℕ :=
  let jsonPadding := pad4 json.length
  let jsonLength := json.length + jsonPadding
  let binPadding := pad4 bin.length
  let binLength := bin.length + binPadding
  let glbLength := 12 + 8 + jsonLength +
    (if 0 < bin.length then 8 + binLength else 0)
  [0x67, 0x6C, 0x54, 0x46] ++ u32le 2 ++ u32le glbLength ++
    u32le jsonLength ++ [0x4A, 0x53, 0x4F, 0x4E] ++ json ++
    List.replicate jsonPadding 0x20 ++
    (if 0 < bin.length then
      u32le binLength ++ [0x42, 0x49, 0x4E, 0x00] ++ bin ++
        List.replicate binPadding 0x00
    else [])

/-- The process-wide shared state the error-atomicity policy talks about:
the Geometry registry, the PackedGeometry registry, the four string
transport scratch buffers, the scene document and the binary blob.  The
separate GLB output buffer is not part of it (it is modeled as the return
value of serialize). -/
structure PfState where
  geometries : List Geometry
  packedGeometries : List PackedGeometry
  stringTransport : List (List ℕ)
  glbJson : Option Root
  glbBin : List ℕ
deriving DecidableEq

/-- The statics at process start: empty registries, four empty scratch
buffers, no scene document, empty blob. -/
def initialState : PfState := ⟨[], [], [[], [], [], []], none, []⟩

/-- Values returned by FFI calls (packed into one u64 on the wire). -/
inductive FFIVal where
  | unit
  | num (n : ℕ)
  | fatPtr (offset size : ℕ)
deriving DecidableEq

/-- The public FFI operations of the library that the claims exercise.
string_transport and serialize carry an addr oracle: the linear-memory
address Rust reads from Vec::as_ptr, which a memory-free embedding cannot
compute.  serialize also carries the serde-serialized JSON bytes of the
document as an oracle.  The two rotation operations, the two trigonometric
primitive generators (circle, cylinder) and the recursive
node_clone_subtree are not embedded; each of them follows the same
validate-then-mutate shape as the embedded operations. -/
inductive Op where
  | stringTransport (handle size addr : ℕ)
  | init
  | newMaterial (r g b a metallicity roughness : ℚ)
  | sceneAddNode (scene node : ℕ)
  | nodeNew
  | nodeAddNode (n1 n2 : ℕ)
  | nodeSetTranslation (node : ℕ) (x y z : ℚ)
  | nodeSetRotation (node : ℕ) (x y z w : ℚ)
  | nodeSetScale (node : ℕ) (x y z : ℚ)
  | nodeSetMatrix (node : ℕ) (m : List ℚ)
  | nodeSetMesh (node mesh : ℕ)
  | meshNew
  | meshAddPrim (mesh packedGeometry material : ℕ)
  | getSceneCount
  | getNodeCount
  | getMeshCount
  | getMaterialCount
  | meshGetPrimCount (handle : ℕ)
  | geometryNew
  | geometryNewCube
  | geometryTranslate (handle : ℕ) (x y z : ℚ)
  | geometryScale (handle : ℕ) (x y z : ℚ)
  | geometrySelect (handle : ℕ) (x1 y1 z1 x2 y2 z2 : ℚ)
  | geometryCreateVtx (handle : ℕ) (x y z : ℚ)
  | geometryDeleteVtx (handle vtx : ℕ)
  | geometryDeleteVtcs (handle : ℕ)
  | geometryCreateTri (handle a b c : ℕ)
  | geometryDeleteTri (handle tri : ℕ)
  | geometryDeleteTris (handle : ℕ)
  | geometryDeleteStrayVtcs (handle : ℕ)
  | geometryMerge (handle : ℕ) (x y z : ℚ)
  | geometryFlipNormals (handle : ℕ)
  | geometryDoubleside (handle : ℕ)
  | geometryCopy (handle : ℕ)
  | geometrySetVtx (handle vtx : ℕ) (x y z : ℚ)
  | geometrySetTri (handle tri a b c : ℕ)
  | geometryGetVtxCount (handle : ℕ)
  | geometryGetTriCount (handle : ℕ)
  | geometryExtrude (handle : ℕ) (x y z : ℚ)
  | geometryAddSquare (handle : ℕ) (unit : Bool)
  | geometryAddCube (handle : ℕ) (unit : Bool)
  | geometryPack (handle : ℕ)
  | serialize (jsonBytes : List ℕ) (addr : ℕ)

/-- Replace geometry number h by f applied to it. -/
def updGeom (st : PfState) (h : ℕ) (f : Geometry → Geometry) : PfState :=
  let g := f (st.geometries.getD h Geometry.new)
  { st with geometries := st.geometries.set h g }

/-- Replace the scene document. -/
def setJson (st : PfState) (root : Root) : PfState :=
  { st with glbJson := some root }

/-- One FFI call: given the shared state, produce the returned
Result and the state as it stands when the call returns.  A none result
models a Rust panic (an unchecked out-of-bounds slice or Vec index); it is
produced exactly where the source indexes without a bounds check. -/
def ffiStep (op : Op) (st : PfState) :
    Option (Except ErrorCode FFIVal × PfState) :=
  match op with
  | .stringTransport handle size addr =>
    if 4 ≤ handle then some (.error .HandleOutOfBounds, st)
    else if size = 0xffffffff then
      if addr < 0x10000 then some (.error .PointerTooLow, st)
      else some (.ok (.fatPtr addr (st.stringTransport.getD handle []).length),
        st)
    else if 64 < size then some (.error .SizeOutOfBounds, st)
    else
      let buf := resizeTo (st.stringTransport.getD handle []) size
      let st' := { st with stringTransport := st.stringTransport.set handle buf }
      if addr < 0x10000 then some (.error .PointerTooLow, st')
      else some (.ok (.fatPtr addr buf.length), st')
  | .init => some (.ok .unit, { st with glbJson := some initRoot, glbBin := [] })
  | .newMaterial r g b a metallicity roughness =>
    match get_string_transport st.stringTransport 0 with
    | .error e => some (.error e, st)
    | .ok name =>
      match st.glbJson with
      | none => some (.error .NotInitialized, st)
      | some root =>
        let mat : GltfMaterial := ⟨some name,
          (f32val r, f32val g, f32val b, f32val a),
          f32val metallicity, f32val roughness⟩
        some (.ok (.num root.materials.length),
          setJson st { root with materials := root.materials ++ [mat] })
  | .sceneAddNode scene node =>
    match st.glbJson with
    | none => some (.error .NotInitialized, st)
    | some root =>
      if root.scenes.length ≤ scene then some (.error .HandleOutOfBounds, st)
      else if root.nodes.length ≤ node then
        some (.error .HandleOutOfBounds, st)
      else
        let sc := root.scenes.getD scene ⟨none, []⟩
        let scenes := root.scenes.set scene
          { sc with nodes := sc.nodes ++ [node] }
        some (.ok .unit, setJson st { root with scenes := scenes })
  | .nodeNew =>
    match get_string_transport st.stringTransport 0 with
    | .error e => some (.error e, st)
    | .ok name =>
      match st.glbJson with
      | none => some (.error .NotInitialized, st)
      | some root =>
        let nd : GltfNode := ⟨some name, none, none, none, none, none, none⟩
        some (.ok (.num root.nodes.length),
          setJson st { root with nodes := root.nodes ++ [nd] })
  | .nodeAddNode n1 n2 =>
    match st.glbJson with
    | none => some (.error .NotInitialized, st)
    | some root =>
      if root.nodes.length ≤ n1 then some (.error .HandleOutOfBounds, st)
      else if root.nodes.length ≤ n2 then some (.error .HandleOutOfBounds, st)
      else
        let nd := root.nodes.getD n1 ⟨none, none, none, none, none, none, none⟩
        let nodes := root.nodes.set n1
          { nd with children := some ((nd.children.getD []) ++ [n2]) }
        some (.ok .unit, setJson st { root with nodes := nodes })
  | .nodeSetTranslation node x y z =>
    match st.glbJson with
    | none => some (.error .NotInitialized, st)
    | some root =>
      if root.nodes.length ≤ node then some (.error .HandleOutOfBounds, st)
      else
        let nd := root.nodes.getD node ⟨none, none, none, none, none, none, none⟩
        let nodes := root.nodes.set node { nd with translation := some (x, y, z) }
        some (.ok .unit, setJson st { root with nodes := nodes })
  | .nodeSetRotation node x y z w =>
    match st.glbJson with
    | none => some (.error .NotInitialized, st)
    | some root =>
      if root.nodes.length ≤ node then some (.error .HandleOutOfBounds, st)
      else
        let nd := root.nodes.getD node ⟨none, none, none, none, none, none, none⟩
        let nodes := root.nodes.set node
          { nd with rotation := some (x, y, z, w) }
        some (.ok .unit, setJson st { root with nodes := nodes })
  | .nodeSetScale node x y z =>
    match st.glbJson with
    | none => some (.error .NotInitialized, st)
    | some root =>
      if root.nodes.length ≤ node then some (.error .HandleOutOfBounds, st)
      else
        let nd := root.nodes.getD node ⟨none, none, none, none, none, none, none⟩
        let nodes := root.nodes.set node { nd with scale := some (x, y, z) }
        some (.ok .unit, setJson st { root with nodes := nodes })
  | .nodeSetMatrix node m =>
    match st.glbJson with
    | none => some (.error .NotInitialized, st)
    | some root =>
      if root.nodes.length ≤ node then some (.error .HandleOutOfBounds, st)
      else
        let nd := root.nodes.getD node ⟨none, none, none, none, none, none, none⟩
        let nodes := root.nodes.set node { nd with matrix := some m }
        some (.ok .unit, setJson st { root with nodes := nodes })
  | .nodeSetMesh node mesh =>
    match st.glbJson with
    | none => some (.error .NotInitialized, st)
    | some root =>
      if root.nodes.length ≤ node then some (.error .HandleOutOfBounds, st)
      else if root.meshes.length ≤ mesh then
        some (.error .HandleOutOfBounds, st)
      else
        let nd := root.nodes.getD node ⟨none, none, none, none, none, none, none⟩
        let nodes := root.nodes.set node { nd with mesh := some mesh }
        some (.ok .unit, setJson st { root with nodes := nodes })
  | .meshNew =>
    match get_string_transport st.stringTransport 0 with
    | .error e => some (.error e, st)
    | .ok name =>
      match st.glbJson with
      | none => some (.error .NotInitialized, st)
      | some root =>
        some (.ok (.num root.meshes.length),
          setJson st { root with meshes := root.meshes ++ [⟨some name, []⟩] })
  | .meshAddPrim mesh packedGeometry material =>
    match st.glbJson with
    | none => some (.error .NotInitialized, st)
    | some root =>
      if root.meshes.length ≤ mesh then some (.error .HandleOutOfBounds, st)
      else if root.materials.length ≤ material then
        some (.error .HandleOutOfBounds, st)
      else if st.packedGeometries.length ≤ packedGeometry then
        some (.error .HandleOutOfBounds, st)
      else
        let pg := st.packedGeometries.getD packedGeometry ⟨0, 0⟩
        let ms := root.meshes.getD mesh ⟨none, []⟩
        let prim : Prim := ⟨pg.vtx_buffer, some pg.tri_buffer, some material⟩
        let meshes := root.meshes.set mesh
          { ms with primitives := ms.primitives ++ [prim] }
        some (.ok (.num ms.primitives.length),
          setJson st { root with meshes := meshes })
  | .getSceneCount =>
    match st.glbJson with
    | none => some (.error .NotInitialized, st)
    | some root => some (.ok (.num root.scenes.length), st)
  | .getNodeCount =>
    match st.glbJson with
    | none => some (.error .NotInitialized, st)
    | some root => some (.ok (.num root.nodes.length), st)
  | .getMeshCount =>
    match st.glbJson with
    | none => some (.error .NotInitialized, st)
    | some root => some (.ok (.num root.meshes.length), st)
  | .getMaterialCount =>
    match st.glbJson with
    | none => some (.error .NotInitialized, st)
    | some root => some (.ok (.num root.materials.length), st)
  | .meshGetPrimCount handle =>
    match st.glbJson with
    | none => some (.error .NotInitialized, st)
    | some root =>
      if root.meshes.length ≤ handle then none
      else some (.ok (.num (root.meshes.getD handle ⟨none, []⟩).primitives.length), st)
  | .geometryNew =>
    some (.ok (.num st.geometries.length),
      { st with geometries := st.geometries ++ [Geometry.new] })
  | .geometryNewCube =>
    some (.ok (.num st.geometries.length),
      { st with geometries := st.geometries ++ [Geometry.cube] })
  | .geometryTranslate h x y z =>
    if st.geometries.length ≤ h then some (.error .HandleOutOfBounds, st)
    else some (.ok .unit, updGeom st h (fun g => g.translate x y z))
  | .geometryScale h x y z =>
    if st.geometries.length ≤ h then some (.error .HandleOutOfBounds, st)
    else some (.ok .unit, updGeom st h (fun g => g.scale x y z))
  | .geometrySelect h x1 y1 z1 x2 y2 z2 =>
    if st.geometries.length ≤ h then some (.error .HandleOutOfBounds, st)
    else some (.ok .unit,
      updGeom st h (fun g => g.select (x1, y1, z1) (x2, y2, z2)))
  | .geometryCreateVtx h x y z =>
    if st.geometries.length ≤ h then some (.error .HandleOutOfBounds, st)
    else some (.ok .unit, updGeom st h (fun g => g.create_vtx (x, y, z)))
  | .geometryDeleteVtx h vtx =>
    if st.geometries.length ≤ h then some (.error .HandleOutOfBounds, st)
    else if (st.geometries.getD h Geometry.new).vtcs.length ≤ vtx then none
    else some (.ok .unit, updGeom st h (fun g => g.delete_vtx vtx))
  | .geometryDeleteVtcs h =>
    if st.geometries.length ≤ h then some (.error .HandleOutOfBounds, st)
    else some (.ok .unit, updGeom st h Geometry.delete_vtcs)
  | .geometryCreateTri h a b c =>
    if st.geometries.length ≤ h then some (.error .HandleOutOfBounds, st)
    else
      match (st.geometries.getD h Geometry.new).create_tri ⟨a, b, c⟩ with
      | .error e => some (.error e, st)
      | .ok g' =>
        some (.ok .unit, { st with geometries := st.geometries.set h g' })
  | .geometryDeleteTri h tri =>
    if st.geometries.length ≤ h then some (.error .HandleOutOfBounds, st)
    else if (st.geometries.getD h Geometry.new).tris.length ≤ tri then none
    else some (.ok .unit, updGeom st h (fun g => g.delete_tri tri))
  | .geometryDeleteTris h =>
    if st.geometries.length ≤ h then some (.error .HandleOutOfBounds, st)
    else some (.ok .unit, updGeom st h Geometry.delete_tris)
  | .geometryDeleteStrayVtcs h =>
    if st.geometries.length ≤ h then some (.error .HandleOutOfBounds, st)
    else some (.ok .unit, updGeom st h Geometry.delete_stray_vtcs)
  | .geometryMerge h x y z =>
    if st.geometries.length ≤ h then some (.error .HandleOutOfBounds, st)
    else some (.ok .unit, updGeom st h (fun g => g.merge (x, y, z)))
  | .geometryFlipNormals h =>
    if st.geometries.length ≤ h then some (.error .HandleOutOfBounds, st)
    else some (.ok .unit, updGeom st h Geometry.flip_normals)
  | .geometryDoubleside h =>
    if st.geometries.length ≤ h then some (.error .HandleOutOfBounds, st)
    else some (.ok .unit, updGeom st h Geometry.doubleside)
  | .geometryCopy h =>
    if st.geometries.length ≤ h then some (.error .HandleOutOfBounds, st)
    else some (.ok .unit, updGeom st h Geometry.copy)
  | .geometrySetVtx h vtx x y z =>
    if st.geometries.length ≤ h then some (.error .HandleOutOfBounds, st)
    else if (st.geometries.getD h Geometry.new).vtcs.length ≤ vtx then
      some (.error .VtxOutOfBounds, st)
    else some (.ok .unit, updGeom st h (fun g => g.set_vtx vtx (x, y, z)))
  | .geometrySetTri h tri a b c =>
    if st.geometries.length ≤ h then some (.error .HandleOutOfBounds, st)
    else if (st.geometries.getD h Geometry.new).tris.length ≤ tri then
      some (.error .TriOutOfBounds, st)
    else some (.ok .unit, updGeom st h (fun g => g.set_tri tri ⟨a, b, c⟩))
  | .geometryGetVtxCount h =>
    if st.geometries.length ≤ h then some (.error .HandleOutOfBounds, st)
    else some (.ok (.num (st.geometries.getD h Geometry.new).vtcs.length), st)
  | .geometryGetTriCount h =>
    if st.geometries.length ≤ h then some (.error .HandleOutOfBounds, st)
    else some (.ok (.num (st.geometries.getD h Geometry.new).tris.length), st)
  | .geometryExtrude h x y z =>
    if st.geometries.length ≤ h then some (.error .HandleOutOfBounds, st)
    else some (.ok .unit, updGeom st h (fun g => g.extrude (x, y, z)))
  | .geometryAddSquare h unit =>
    if st.geometries.length ≤ h then some (.error .HandleOutOfBounds, st)
    else some (.ok .unit, updGeom st h (fun g => g.add_square unit))
  | .geometryAddCube h unit =>
    if st.geometries.length ≤ h then some (.error .HandleOutOfBounds, st)
    else some (.ok .unit, updGeom st h (fun g => g.add_cube unit))
  | .geometryPack h =>
    match st.glbJson with
    | none => some (.error .NotInitialized, st)
    | some root =>
      if st.geometries.length ≤ h then some (.error .HandleOutOfBounds, st)
      else
        let g := st.geometries.getD h Geometry.new
        let r := g.pack st.glbBin root
        let pgs := st.packedGeometries ++ [r.2.2]
        some (.ok (.num st.packedGeometries.length),
          { st with glbJson := some r.2.1, glbBin := r.1, packedGeometries := pgs })
  | .serialize jsonBytes addr =>
    match st.glbJson with
    | none => some (.error .NotInitialized, st)
    | some _ =>
      let out := serializeGLB jsonBytes st.glbBin
      if addr < 0x10000 then some (.error .PointerTooLow, st)
      else some (.ok (.fatPtr addr out.length), st)

/-- Whether the operation is the string transport call. -/
def Op.isStringTransport : Op → Bool
  | .stringTransport _ _ _ => true
  | _ => false

/-- Run a list of operations, requiring every one of them to return Ok. -/
def runAllOk (ops : List Op) (st : PfState) : Option PfState :=
  match ops with
  | [] => some st
  | op :: rest =>
    match ffiStep op st with
    | some (.ok _, st') => runAllOk rest st'
    | _ => none

/-- Index-integrity invariant stated by the spec: every triangle slot and
every selected index is below len(vtcs). -/
def GeometryInvariant (g : Geometry) : Prop :=
  (∀ t ∈ g.tris,
    t.a < g.vtcs.length ∧ t.b < g.vtcs.length ∧ t.c < g.vtcs.length) ∧
  (∀ v ∈ g.selection, v < g.vtcs.length)

instance (g : Geometry) : Decidable (GeometryInvariant g) := by
  unfold GeometryInvariant; infer_instance

/-- The extrude-a-square scenario: add_square(false) on an empty geometry,
then extrude by (0, 0, 1). -/
def squareExtruded : Geometry := (Geometry.new.add_square false).extrude (0, 0, 1)

/-- The cube-pack scenario: pack a fresh cube into the freshly initialized
document and empty blob. -/
def cubePacked : List ℕ × Root × PackedGeometry := Geometry.cube.pack [] initRoot

/-- Placeholder accessor used as a getD default when reading pack results. -/
def accD : Accessor := ⟨none, .Scalar, .U8, 0, none, none⟩

/-- Placeholder buffer view used as a getD default. -/
def bvD : BufferView := ⟨0, 0, 0, none⟩

deriving instance DecidableEq for Except

attribute [local semireducible] Rat.mul Rat.add Rat.sub Rat.inv

set_option maxRecDepth 8000

/-- C4: the claim says delete_stray_vtcs deletes every vertex unreferenced
by any triangle.  The code iterates the empty range vtcs.len()..0 (and its
body condition is inverted), so the operation is the identity on every
geometry: the claimed deletion never happens. -/
theorem c4_delete_stray_vtcs_noop (g : Geometry) : g.delete_stray_vtcs = g := by
  simp [Geometry.delete_stray_vtcs, Nat.zero_sub]

/-- C6: add_square(false) on an empty geometry followed by extrude((0,0,1))
yields 8 vertices and 12 triangles — the 2 original cap triangles reversed
in place, the 2 displaced cap triangles, and 2 side-wall triangles for each
of the 4 boundary edges — and the selection is exactly the 4 new displaced
vertex indices; the new vertices are the originals displaced by (0,0,1). -/
theorem c6_extrude_square :
    squareExtruded.vtcs.length = 8 ∧
    squareExtruded.tris.length = 12 ∧
    squareExtruded.selection = [4, 5, 6, 7] ∧
    squareExtruded.tris.getD 0 ⟨0, 0, 0⟩ = ⟨1, 2, 0⟩ ∧
    squareExtruded.tris.getD 1 ⟨0, 0, 0⟩ = ⟨2, 1, 3⟩ ∧
    (⟨6, 5, 4⟩ : Tri) ∈ squareExtruded.tris ∧
    (⟨5, 6, 7⟩ : Tri) ∈ squareExtruded.tris ∧
    (⟨1, 0, 4⟩ : Tri) ∈ squareExtruded.tris ∧
    (⟨1, 4, 5⟩ : Tri) ∈ squareExtruded.tris ∧
    (⟨0, 2, 6⟩ : Tri) ∈ squareExtruded.tris ∧
    (⟨0, 6, 4⟩ : Tri) ∈ squareExtruded.tris ∧
    (⟨2, 3, 7⟩ : Tri) ∈ squareExtruded.tris ∧
    (⟨2, 7, 6⟩ : Tri) ∈ squareExtruded.tris ∧
    (⟨3, 1, 5⟩ : Tri) ∈ squareExtruded.tris ∧
    (⟨3, 5, 7⟩ : Tri) ∈ squareExtruded.tris ∧
    squareExtruded.vtcs.drop 4 =
      [(-1, -1, 1), (-1, 1, 1), (1, -1, 1), (1, 1, 1)] := by
  decide

/-- C5 counterexample: the claim states the packed cube buffer has
byteLength 120 (96 + 24); the 12 triangles take 12 * 3 * 2 = 72 bytes of
u16 indices, so the buffer actually ends at 96 + 72 = 168 bytes. -/
theorem c5_pack_cube_counterexample :
    (cubePacked.2.1.buffers.getD 0 ⟨0⟩).byteLength = 168 ∧
    (cubePacked.2.1.buffers.getD 0 ⟨0⟩).byteLength ≠ 120 := by
  decide

/-- C5 amended: packing a fresh cube after init produces exactly 2
accessors, 2 buffer views and a single buffer whose byteLength is 168
bytes — 96 bytes of positions (3 little-endian f32 of 4 bytes per vertex)
plus 72 bytes of little-endian u16 indices (emitted as u16 because
len(vtcs) < 2^16) — with the vertex accessor bounds min (-1,-1,-1) and
max (1,1,1), counts 8 and 36, and view offsets 0 and 96. -/
theorem c5_pack_cube_amended :
    runAllOk [Op.init, Op.geometryNewCube, Op.geometryPack 0] initialState =
      some ⟨[Geometry.cube], [⟨0, 1⟩], [[], [], [], []], some cubePacked.2.1,
        cubePacked.1⟩ ∧
    cubePacked.2.1.accessors.length = 2 ∧
    cubePacked.2.1.bufferViews.length = 2 ∧
    cubePacked.2.1.buffers = [⟨168⟩] ∧
    cubePacked.1.length = 168 ∧
    cubePacked.1 = vtcs_raw_bytes Geometry.cube ++ tris_raw_bytes Geometry.cube ∧
    (vtcs_raw_bytes Geometry.cube).length = 96 ∧
    f32LeBytes 1 = [0, 0, 128, 63] ∧
    f32LeBytes (-1) = [0, 0, 128, 191] ∧
    tris_raw_bytes Geometry.cube =
      [1, 0, 3, 0, 5, 0, 3, 0, 7, 0, 5, 0, 4, 0, 5, 0, 6, 0, 5, 0, 7, 0, 6, 0,
       0, 0, 2, 0, 1, 0, 1, 0, 2, 0, 3, 0, 0, 0, 1, 0, 4, 0, 1, 0, 5, 0, 4, 0,
       2, 0, 6, 0, 3, 0, 3, 0, 6, 0, 7, 0, 0, 0, 4, 0, 2, 0, 2, 0, 4, 0, 6, 0] ∧
    Geometry.cube.vtcs.length < 2 ^ 16 ∧
    (cubePacked.2.1.accessors.getD 0 accD).min = some [-1, -1, -1] ∧
    (cubePacked.2.1.accessors.getD 0 accD).max = some [1, 1, 1] ∧
    (cubePacked.2.1.accessors.getD 0 accD).componentType = .F32 ∧
    (cubePacked.2.1.accessors.getD 0 accD).count = 8 ∧
    (cubePacked.2.1.accessors.getD 1 accD).componentType = .U16 ∧
    (cubePacked.2.1.accessors.getD 1 accD).count = 36 ∧
    (cubePacked.2.1.bufferViews.getD 0 bvD).byteLength = 96 ∧
    (cubePacked.2.1.bufferViews.getD 0 bvD).byteOffset = 0 ∧
    (cubePacked.2.1.bufferViews.getD 1 bvD).byteLength = 72 ∧
    (cubePacked.2.1.bufferViews.getD 1 bvD).byteOffset = 96 := by
  decide

/-- C1: the spec requires that after any Ok-returning sequence of public
operations every triangle index and every selected index is below
len(vtcs).  The sequence create geometry, create one vertex, create the
triangle [0,0,0], then geometry_set_tri(0, 0, 5, 5, 5) returns Ok at every
step, yet leaves the triangle [5,5,5] with only one vertex stored:
geometry_set_tri never validates the vertex indices, breaking the
invariant. -/
theorem c1_index_integrity_violated :
    runAllOk [Op.geometryNew, Op.geometryCreateVtx 0 0 0 0,
      Op.geometryCreateTri 0 0 0 0, Op.geometrySetTri 0 0 5 5 5]
      initialState =
      some ⟨[⟨[(0, 0, 0)], [⟨5, 5, 5⟩], []⟩], [], [[], [], [], []], none, []⟩ ∧
    ¬ GeometryInvariant ⟨[(0, 0, 0)], [⟨5, 5, 5⟩], []⟩ := by
  exact ⟨by decide, by decide⟩

/-- C2 counterexample: the claim states geometry_set_tri returns
Err(VtxOutOfBounds) when a vertex index is not below len(vtcs); on a
geometry with one vertex and one triangle, geometry_set_tri(0, 0, 5, 5, 5)
returns Ok and stores the out-of-range triangle instead. -/
theorem c2_set_tri_counterexample :
    ffiStep (Op.geometrySetTri 0 0 5 5 5)
      ⟨[⟨[(0, 0, 0)], [⟨0, 0, 0⟩], []⟩], [], [[], [], [], []], none, []⟩ =
      some (.ok .unit,
        ⟨[⟨[(0, 0, 0)], [⟨5, 5, 5⟩], []⟩], [], [[], [], [], []], none, []⟩) ∧
    (ffiStep (Op.geometrySetTri 0 0 5 5 5)
      ⟨[⟨[(0, 0, 0)], [⟨0, 0, 0⟩], []⟩], [], [[], [], [], []], none, []⟩).map
      Prod.fst ≠ some (.error .VtxOutOfBounds) := by
  exact ⟨by decide, by decide⟩

/-- C2 amended: create_tri fails with VtxOutOfBounds exactly when some
supplied vertex index is not below len(vtcs) and otherwise appends the
triangle, while geometry_set_tri validates only the handle and the triangle
index and — given those — overwrites the triangle with [a,b,c]
unconditionally, never checking the vertex indices. -/
theorem c2_tri_bounds_amended :
    (∀ (g : Geometry) (a b c : ℕ),
      (g.create_tri ⟨a, b, c⟩ = .error .VtxOutOfBounds ↔
        g.vtcs.length ≤ a ∨ g.vtcs.length ≤ b ∨ g.vtcs.length ≤ c) ∧
      (a < g.vtcs.length → b < g.vtcs.length → c < g.vtcs.length →
        g.create_tri ⟨a, b, c⟩ = .ok { g with tris := g.tris ++ [⟨a, b, c⟩] })) ∧
    (∀ (st : PfState) (h tri a b c : ℕ), h < st.geometries.length →
      tri < (st.geometries.getD h Geometry.new).tris.length →
      ffiStep (.geometrySetTri h tri a b c) st =
        some (.ok .unit, updGeom st h (fun g => g.set_tri tri ⟨a, b, c⟩))) := by
  constructor
  · intro g a b c
    constructor
    · unfold Geometry.create_tri
      split_ifs with h1 h2 h3 <;> simp_all
    · intro ha hb hc
      unfold Geometry.create_tri
      dsimp only
      rw [if_neg (by omega), if_neg (by omega), if_neg (by omega)]
  · intro st h tri a b c hh htri
    simp only [ffiStep]
    rw [if_neg (by omega), if_neg (by omega)]

/-- C2 witness: create_tri with in-range indices appends, and
geometry_set_tri with a valid handle and triangle index overwrites. -/
theorem c2_tri_bounds_witness :
    Geometry.create_tri ⟨[(0, 0, 0)], [], []⟩ ⟨0, 0, 0⟩ =
      .ok { (⟨[(0, 0, 0)], [], []⟩ : Geometry) with tris := [] ++ [⟨0, 0, 0⟩] } ∧
    ffiStep (.geometrySetTri 0 0 5 5 5)
      ⟨[⟨[(0, 0, 0)], [⟨0, 0, 0⟩], []⟩], [], [[], [], [], []], none, []⟩ =
      some (.ok .unit,
        updGeom ⟨[⟨[(0, 0, 0)], [⟨0, 0, 0⟩], []⟩], [], [[], [], [], []], none, []⟩
          0 (fun g => g.set_tri 0 ⟨5, 5, 5⟩)) :=
  ⟨(c2_tri_bounds_amended.1 ⟨[(0, 0, 0)], [], []⟩ 0 0 0).2 (by decide)
      (by decide) (by decide),
    c2_tri_bounds_amended.2
      ⟨[⟨[(0, 0, 0)], [⟨0, 0, 0⟩], []⟩], [], [[], [], [], []], none, []⟩
      0 0 5 5 5 (by decide) (by decide)⟩

/-- C7 counterexample: the claim states that after delete_vtx(i) the
selection never contains the swapped-from index (the old last index).  On a
geometry with two vertices and selection {1}, delete_vtx(1) leaves the
selection equal to {1}, which is the swapped-from index — and is out of
range for the single remaining vertex. -/
theorem c7_delete_vtx_selection_counterexample :
    (Geometry.delete_vtx ⟨[(0, 0, 0), (0, 0, 0)], [], [1]⟩ 1).selection = [1] := by
  decide

/-- C9 counterexample: the claim states every fallible operation leaves the
shared state untouched when it fails; string_transport(0, 5) with an
allocator address below 2^16 resizes scratch buffer 0 to five bytes and
then fails with PointerTooLow, leaving the resize behind. -/
theorem c9_string_transport_counterexample :
    ffiStep (Op.stringTransport 0 5 0) initialState =
      some (.error .PointerTooLow,
        ⟨[], [], [[0, 0, 0, 0, 0], [], [], []], none, []⟩) ∧
    (⟨[], [], [[0, 0, 0, 0, 0], [], [], []], none, []⟩ : PfState) ≠
      initialState := by
  exact ⟨by decide, by decide⟩

/-- C9 amended: every embedded fallible operation other than
string_transport validates its inputs (bounds, initialization, handles)
before any mutation, so on an error return the shared state - geometry
registry, packed-geometry registry, scene document, binary blob and scratch
buffers - is exactly what it was before the call; string_transport also
leaves the state unchanged for every error except PointerTooLow, where the
scratch buffer has already been resized (the corrected exception). -/
theorem c9_atomicity_amended :
    (∀ (op : Op) (st st' : PfState) (e : ErrorCode),
      op.isStringTransport = false →
      ffiStep op st = some (.error e, st') → st' = st) ∧
    (∀ (handle size addr : ℕ) (st st' : PfState) (e : ErrorCode),
      e ≠ .PointerTooLow →
      ffiStep (.stringTransport handle size addr) st = some (.error e, st') →
      st' = st) := by
  constructor
  · intro op st st' e hop hstep
    cases op
    case stringTransport => simp [Op.isStringTransport] at hop
    all_goals
      simp only [ffiStep] at hstep
    all_goals
      repeat' split at hstep
    all_goals
      simp_all
  · intro handle size addr st st' e he hstep
    simp only [ffiStep] at hstep
    repeat' split at hstep
    all_goals simp_all

/-- C9 witness: a failing geometry_translate on a bad handle and a failing
string_transport on a bad handle both leave the initial state unchanged. -/
theorem c9_atomicity_amended_witness :
    initialState = initialState ∧ initialState = initialState :=
  ⟨c9_atomicity_amended.1 (.geometryTranslate 5 0 0 0) initialState
      initialState .HandleOutOfBounds (by decide) (by decide),
   c9_atomicity_amended.2 7 0 0 initialState initialState .HandleOutOfBounds
      (by decide) (by decide)⟩

/-- C10: geometry_delete_vtx and geometry_delete_tri validate only the
geometry handle: with a valid handle and an out-of-range vertex or triangle
index they do not return VtxOutOfBounds or TriOutOfBounds but hit the
unchecked swap_remove, a panic (modeled as none); with the index in bounds
the deletion succeeds. -/
theorem c10_delete_unchecked (st : PfState) (h vtx tri : ℕ)
    (hh : h < st.geometries.length) :
    ((st.geometries.getD h Geometry.new).vtcs.length ≤ vtx →
      ffiStep (.geometryDeleteVtx h vtx) st = none) ∧
    ((st.geometries.getD h Geometry.new).tris.length ≤ tri →
      ffiStep (.geometryDeleteTri h tri) st = none) ∧
    (vtx < (st.geometries.getD h Geometry.new).vtcs.length →
      ffiStep (.geometryDeleteVtx h vtx) st =
        some (.ok .unit, updGeom st h (fun g => g.delete_vtx vtx))) := by
  refine ⟨fun hv => ?_, fun ht => ?_, fun hv => ?_⟩ <;> simp only [ffiStep]
  · rw [if_neg (by omega), if_pos hv]
  · rw [if_neg (by omega), if_pos ht]
  · rw [if_neg (by omega), if_neg (by omega)]

/-- swap_remove on a non-empty list shortens it by exactly one slot. -/
theorem swapRemove_length {α : Type} (l : List α) (hl : l ≠ []) (i : ℕ) :
    (swapRemove l i).length = l.length - 1 := by
  unfold swapRemove
  cases h : l.getLast? with
  | none => exact absurd (List.getLast?_eq_none_iff.mp h) hl
  | some y => simp

/-- swap_remove leaves every slot other than i and the dropped last slot
unchanged. -/
theorem swapRemove_getD {α : Type} (l : List α) (d : α) (i j : ℕ)
    (hj : j < l.length - 1) (hij : j ≠ i) :
    (swapRemove l i).getD j d = l.getD j d := by
  have hl : l ≠ [] := by
    intro h; subst h; simp at hj
  cases h : l.getLast? with
  | none => exact absurd (List.getLast?_eq_none_iff.mp h) hl
  | some y =>
    unfold swapRemove
    rw [h]
    simp only [List.getD_eq_getElem?_getD]
    rw [List.getElem?_set_ne (by omega)]
    rw [List.dropLast_eq_take, List.getElem?_take_of_lt (by omega)]

/-- delete_vtx of an in-range vertex removes exactly one vertex slot. -/
theorem delete_vtx_vtcs_length (g : Geometry) (v : ℕ) (hv : v < g.vtcs.length) :
    (g.delete_vtx v).vtcs.length = g.vtcs.length - 1 := by
  have hne : g.vtcs ≠ [] := by
    intro h; rw [h] at hv; simp at hv
  simp [Geometry.delete_vtx, swapRemove_length _ hne]

/-- delete_vtx leaves the position of any other surviving vertex slot
unchanged. -/
theorem delete_vtx_vtcs_getD (g : Geometry) (v t : ℕ) (d : V3)
    (ht : t < g.vtcs.length - 1) (htv : t ≠ v) :
    (g.delete_vtx v).vtcs.getD t d = g.vtcs.getD t d := by
  simp only [Geometry.delete_vtx]
  exact swapRemove_getD _ _ _ _ ht htv

/-- Folding delete_vtx over strictly descending in-range indices, all above
t, removes exactly one vertex per index and never moves vertex t. -/
theorem foldl_delete_vtx_spec (d : V3) (L : List ℕ) :
    ∀ (g : Geometry) (t : ℕ), L.Pairwise (fun a b => b < a) →
      (∀ v ∈ L, v < g.vtcs.length) → (∀ v ∈ L, t < v) →
      (L.foldl Geometry.delete_vtx g).vtcs.length = g.vtcs.length - L.length ∧
      (L.foldl Geometry.delete_vtx g).vtcs.getD t d = g.vtcs.getD t d := by
  induction L with
  | nil => simp
  | cons v L ih =>
    intro g t hp hb ht
    have hv : v < g.vtcs.length := hb v (by simp)
    have htv : t < v := ht v (by simp)
    have hlen := delete_vtx_vtcs_length g v hv
    have hvGt : ∀ w ∈ L, w < v := fun w hw => (List.pairwise_cons.mp hp).1 w hw
    obtain ⟨ihlen, ihget⟩ := ih (g.delete_vtx v) t (List.pairwise_cons.mp hp).2
      (fun w hw => by have := hvGt w hw; omega)
      (fun w hw => ht w (by simp [hw]))
    constructor
    · rw [List.foldl_cons, ihlen, hlen]
      simp
      omega
    · rw [List.foldl_cons, ihget,
        delete_vtx_vtcs_getD g v t d (by omega) (by omega)]

/-- swap_remove keeps the prefix before the removed slot unchanged. -/
theorem take_swapRemove {α : Type} (l : List α) (i : ℕ) (hi : i < l.length) :
    (swapRemove l i).take i = l.take i := by
  have hl : l ≠ [] := List.ne_nil_of_length_pos (by omega)
  cases h : l.getLast? with
  | none => exact absurd (List.getLast?_eq_none_iff.mp h) hl
  | some y =>
    unfold swapRemove
    rw [h, List.set_take, List.set_eq_of_length_le (by simp),
      List.dropLast_eq_take, List.take_take]
    congr 1
    omega

/-- Every element of a swap_remove result was in the original list. -/
theorem mem_of_mem_swapRemove {α : Type} (l : List α) (i : ℕ) (a : α)
    (ha : a ∈ swapRemove l i) : a ∈ l := by
  unfold swapRemove at ha
  cases h : l.getLast? with
  | none => rw [h] at ha; simp at ha
  | some y =>
    rw [h] at ha
    rcases List.mem_or_eq_of_mem_set ha with h1 | rfl
    · exact (List.dropLast_sublist l).mem h1
    · exact List.mem_of_getLast?_eq_some h

/-- swap_remove read back at any surviving slot other than i. -/
theorem swapRemove_getElem? {α : Type} (l : List α) (i j : ℕ)
    (hj : j < l.length - 1) (hij : j ≠ i) :
    (swapRemove l i)[j]? = l[j]? := by
  have hl : l ≠ [] := by intro h; subst h; simp at hj
  cases h : l.getLast? with
  | none => exact absurd (List.getLast?_eq_none_iff.mp h) hl
  | some y =>
    unfold swapRemove
    rw [h, List.getElem?_set_ne (by omega), List.dropLast_eq_take,
      List.getElem?_take_of_lt (by omega)]

/-- An element different from the removed one survives swap_remove. -/
theorem mem_swapRemove_of_ne {α : Type} (l : List α) (i : ℕ)
    (hi : i < l.length) (a : α) (ha : a ∈ l) (hna : a ≠ l.get ⟨i, hi⟩) :
    a ∈ swapRemove l i := by
  obtain ⟨j, hjl, hje⟩ := List.getElem_of_mem ha
  have hji : j ≠ i := by
    intro h; subst h; exact hna hje.symm
  by_cases hlast : j = l.length - 1
  · have hinz : i < l.length - 1 := by omega
    have hy : l.getLast? = some a := by
      rw [List.getLast?_eq_getElem?]
      rw [List.getElem?_eq_getElem (by omega)]
      subst hlast
      simp [hje]
    unfold swapRemove
    rw [hy]
    exact List.mem_set _ _ (by simp [List.length_dropLast]; omega) _
  · have : (swapRemove l i)[j]? = some a := by
      rw [swapRemove_getElem? l i j (by omega) hji,
        List.getElem?_eq_getElem hjl]
      simp [hje]
    exact List.getElem?_mem this

/-- The delete-triangles loop of delete_vtx keeps exactly the triangles
that do not reference v, as long as the fuel bound and the invariant that
the already-scanned prefix is clean both hold. -/
theorem mem_removeTrisAux (v : ℕ) :
    ∀ (fuel : ℕ) (tris : List Tri) (i : ℕ),
      2 * tris.length ≤ fuel + 2 * i →
      (∀ t ∈ tris.take i, triHas t v = false) →
      ∀ t : Tri, t ∈ Geometry.removeTrisAux v fuel tris i ↔
        t ∈ tris ∧ triHas t v = false := by
  intro fuel
  induction fuel with
  | zero =>
    intro tris i hf htake t
    rw [List.take_of_length_le (by omega)] at htake
    unfold Geometry.removeTrisAux
    exact ⟨fun h => ⟨h, htake t h⟩, fun h => h.1⟩
  | succ fuel ih =>
    intro tris i hf htake t
    unfold Geometry.removeTrisAux
    by_cases hi : i < tris.length
    · rw [dif_pos hi]
      by_cases htri : triHas (tris.get ⟨i, hi⟩) v = true
      · rw [if_pos htri]
        have hne : tris ≠ [] := List.ne_nil_of_length_pos (by omega)
        have hlen : (swapRemove tris i).length = tris.length - 1 :=
          swapRemove_length _ hne _
        have htake' : ∀ t ∈ (swapRemove tris i).take i, triHas t v = false := by
          rw [take_swapRemove _ _ hi]; exact htake
        rw [ih (swapRemove tris i) i (by omega) htake' t]
        constructor
        · rintro ⟨hmem, hfree⟩
          exact ⟨mem_of_mem_swapRemove _ _ _ hmem, hfree⟩
        · rintro ⟨hmem, hfree⟩
          refine ⟨mem_swapRemove_of_ne _ _ hi _ hmem ?_, hfree⟩
          intro heq
          rw [heq] at hfree
          simp_all
      · rw [if_neg htri]
        apply ih tris (i + 1) (by omega)
        intro t' ht'
        rw [List.take_succ] at ht'
        rcases List.mem_append.mp ht' with h1 | h2
        · exact htake t' h1
        · rw [List.getElem?_eq_getElem hi] at h2
          simp only [Option.toList_some, List.mem_singleton] at h2
          subst h2
          simpa using htri
    · rw [dif_neg hi]
      rw [List.take_of_length_le (by omega)] at htake
      exact ⟨fun h => ⟨h, htake t h⟩, fun h => h.1⟩

/-- The first pass of delete_vtx keeps exactly the triangles not
referencing the deleted vertex. -/
theorem mem_removeTrisContaining (tris : List Tri) (v : ℕ) (t : Tri) :
    t ∈ Geometry.removeTrisContaining tris v ↔
      t ∈ tris ∧ triHas t v = false := by
  unfold Geometry.removeTrisContaining
  exact mem_removeTrisAux v (2 * tris.length) tris 0 (by omega) (by simp) t

/-- Membership in the ordered-set insert. -/
theorem mem_insertSorted (x a : ℕ) (l : List ℕ) :
    a ∈ insertSorted x l ↔ a = x ∨ a ∈ l := by
  induction l with
  | nil => simp [insertSorted]
  | cons y ys ih =>
    unfold insertSorted
    split_ifs with h1 h2
    · simp
    · subst h2
      simp only [List.mem_cons]
      tauto
    · simp only [List.mem_cons, ih]
      tauto

/-- merge on a non-empty selection, written out: pop the head, move the
vertex, redirect triangles, delete the rest, select the head. -/
theorem merge_cons (g : Geometry) (loc : V3) (t : ℕ) (rest : List ℕ)
    (h : g.selection = t :: rest) :
    g.merge loc =
      { Geometry.delete_vtcs
          ⟨g.vtcs.set t loc,
           g.tris.map (triMap (fun v => if v ∈ rest then t else v)), rest⟩
        with selection := [t] } := by
  unfold Geometry.merge
  rw [h]

/-- C3 counterexample: the claim (spec scenario 5) expects merge((0,0,0))
on cube() to end with len(tris) == 0; the redirect-then-delete order keeps
the 12 collapsed triangles, so len(tris) is 12. -/
theorem c3_merge_cube_counterexample :
    (Geometry.cube.merge (0, 0, 0)).tris.length = 12 ∧
    (Geometry.cube.merge (0, 0, 0)).tris.length ≠ 0 := by
  exact ⟨by decide, by decide⟩

/-- C3 amended: on cube() with all 8 corners selected, merge((0,0,0))
leaves exactly 1 vertex at the target position, selection {0}, and 12
degenerate triangles [0,0,0] — the collapsed triangles are redirected to
the target vertex but never dropped; more generally, whenever the selection
is non-empty (ascending, in range), merge moves vtcs[t] (t the smallest
selected index) to the target position, removes the other selected vertices
(len(vtcs) shrinks by their count), and leaves selection == {t}. -/
theorem c3_merge_amended :
    Geometry.cube.merge (0, 0, 0) =
      ⟨[(0, 0, 0)], List.replicate 12 ⟨0, 0, 0⟩, [0]⟩ ∧
    ∀ (g : Geometry) (loc : V3) (t : ℕ) (rest : List ℕ),
      g.selection = t :: rest →
      g.selection.Pairwise (· < ·) →
      (∀ v ∈ g.selection, v < g.vtcs.length) →
      (g.merge loc).selection = [t] ∧
      (g.merge loc).vtcs.length = g.vtcs.length - rest.length ∧
      (g.merge loc).vtcs.getD t (0, 0, 0) = loc := by
  constructor
  · decide
  · intro g loc t rest hsel hsort hb
    have ht : t < g.vtcs.length := hb t (by simp [hsel])
    rw [merge_cons g loc t rest hsel]
    rw [hsel] at hsort
    have hrest := (List.pairwise_cons.mp hsort).2
    have htlt := (List.pairwise_cons.mp hsort).1
    have hspec := foldl_delete_vtx_spec (0, 0, 0) rest.reverse
      ⟨g.vtcs.set t loc,
       g.tris.map (triMap (fun v => if v ∈ rest then t else v)), rest⟩ t
      (List.pairwise_reverse.mpr (by simpa using hrest))
      (by intro v hv
          simp only [List.mem_reverse] at hv
          simp only [List.length_set]
          exact hb v (by simp [hsel, hv]))
      (by intro v hv
          simp only [List.mem_reverse] at hv
          exact htlt v hv)
    unfold Geometry.delete_vtcs at *
    refine ⟨rfl, ?_, ?_⟩
    · simpa using hspec.1
    · dsimp only
      rw [hspec.2]
      simp only [List.getD_eq_getElem?_getD]
      rw [List.getElem?_set_self (by simpa using ht)]
      rfl

/-- C3 witness: the general merge facts applied to the concrete cube. -/
theorem c3_merge_amended_witness :
    (Geometry.cube.merge (0, 0, 0)).selection = [0] ∧
    (Geometry.cube.merge (0, 0, 0)).vtcs.length =
      Geometry.cube.vtcs.length - ([1, 2, 3, 4, 5, 6, 7] : List ℕ).length ∧
    (Geometry.cube.merge (0, 0, 0)).vtcs.getD 0 (0, 0, 0) = (0, 0, 0) :=
  c3_merge_amended.2 Geometry.cube (0, 0, 0) 0 [1, 2, 3, 4, 5, 6, 7] rfl
    (by decide) (by decide)

/-- C7 amended: for every geometry and vertex index i < len(vtcs), after
delete_vtx(i) no remaining triangle references the old last index (the
swapped-from index, equal to the new len(vtcs)); the remaining triangles
are exactly the original triangles not referencing i, with every occurrence
of the swapped-from index (at any of the three slots) replaced by i.  When
i is not itself the old last index, the selection no longer contains the
swapped-from index and i is selected afterwards iff the swapped-from index
was selected before; when i IS the old last index, i stays selected iff it
was selected before (leaving a dangling index - the corrected edge case). -/
theorem c7_delete_vtx_amended (g : Geometry) (i : ℕ) (hi : i < g.vtcs.length) :
    (∀ t ∈ (g.delete_vtx i).tris, triHas t (g.vtcs.length - 1) = false) ∧
    (∀ t : Tri, t ∈ (g.delete_vtx i).tris ↔
      ∃ t0 ∈ g.tris, triHas t0 i = false ∧
        t = triMap (fun j => if j = g.vtcs.length - 1 then i else j) t0) ∧
    (i < g.vtcs.length - 1 →
      (g.vtcs.length - 1) ∉ (g.delete_vtx i).selection ∧
      (i ∈ (g.delete_vtx i).selection ↔ (g.vtcs.length - 1) ∈ g.selection)) ∧
    (i = g.vtcs.length - 1 →
      (i ∈ (g.delete_vtx i).selection ↔ i ∈ g.selection)) := by
  have hne : g.vtcs ≠ [] := List.ne_nil_of_length_pos (by omega)
  have hsw : (swapRemove g.vtcs i).length = g.vtcs.length - 1 :=
    swapRemove_length _ hne i
  have htris : (g.delete_vtx i).tris =
      (Geometry.removeTrisContaining g.tris i).map
        (triMap fun j => if j = g.vtcs.length - 1 then i else j) := by
    simp only [Geometry.delete_vtx, hsw]
  have hsel : (g.delete_vtx i).selection =
      if g.vtcs.length - 1 ∈ g.selection then
        insertSorted i (g.selection.filter (· ≠ (g.vtcs.length - 1)))
      else g.selection.filter (· ≠ i) := by
    simp only [Geometry.delete_vtx, hsw]
  refine ⟨?_, ?_, ?_, ?_⟩
  · intro t ht
    rw [htris] at ht
    obtain ⟨t0, ht0, rfl⟩ := List.mem_map.mp ht
    have hfree := ((mem_removeTrisContaining _ _ _).mp ht0).2
    simp only [triHas, Bool.or_eq_false_iff, decide_eq_false_iff_not] at hfree
    simp only [triHas, triMap, Bool.or_eq_false_iff, decide_eq_false_iff_not]
    obtain ⟨⟨h1, h2⟩, h3⟩ := hfree
    refine ⟨⟨?_, ?_⟩, ?_⟩ <;> intro hh <;> split_ifs at hh <;> omega
  · intro t
    rw [htris, List.mem_map]
    constructor
    · rintro ⟨t0, ht0, rfl⟩
      have hm := (mem_removeTrisContaining _ _ _).mp ht0
      exact ⟨t0, hm.1, hm.2, rfl⟩
    · rintro ⟨t0, ht0, hfree, rfl⟩
      exact ⟨t0, (mem_removeTrisContaining _ _ _).mpr ⟨ht0, hfree⟩, rfl⟩
  · intro hlt
    rw [hsel]
    by_cases hs : g.vtcs.length - 1 ∈ g.selection
    · rw [if_pos hs]
      constructor
      · rw [mem_insertSorted]
        rintro (h | h)
        · omega
        · simp only [List.mem_filter, decide_eq_true_eq] at h
          exact h.2 rfl
      · simp only [mem_insertSorted]
        constructor
        · intro _; exact hs
        · intro _; left; trivial
    · rw [if_neg hs]
      constructor
      · intro h
        simp only [List.mem_filter, decide_eq_true_eq] at h
        exact hs h.1
      · constructor
        · intro h
          simp only [List.mem_filter, decide_eq_true_eq] at h
          exact absurd h.2 (by simp)
        · intro h; exact absurd h hs
  · intro heq
    rw [hsel, ← heq]
    by_cases hs : i ∈ g.selection
    · rw [if_pos hs]
      simp only [mem_insertSorted]
      constructor
      · intro _; exact hs
      · intro _; left; trivial
    · rw [if_neg hs]
      constructor
      · intro h
        simp only [List.mem_filter, decide_eq_true_eq] at h
        exact absurd h.2 (by simp)
      · intro h; exact absurd h hs

/-- C7 witness: the selection facts applied to two concrete geometries, one
with i below the old last index, one with i equal to it. -/
theorem c7_delete_vtx_amended_witness :
    ((2 : ℕ) ∉
      (Geometry.delete_vtx ⟨[(0, 0, 0), (0, 0, 0), (0, 0, 0)], [⟨0, 1, 2⟩], [2]⟩
        0).selection ∧
     ((0 : ℕ) ∈
        (Geometry.delete_vtx ⟨[(0, 0, 0), (0, 0, 0), (0, 0, 0)], [⟨0, 1, 2⟩], [2]⟩
          0).selection ↔
      (2 : ℕ) ∈
        (⟨[(0, 0, 0), (0, 0, 0), (0, 0, 0)], [⟨0, 1, 2⟩], [2]⟩ : Geometry).selection)) ∧
    ((1 : ℕ) ∈ (Geometry.delete_vtx ⟨[(0, 0, 0), (0, 0, 0)], [], [1]⟩ 1).selection ↔
      (1 : ℕ) ∈ (⟨[(0, 0, 0), (0, 0, 0)], [], [1]⟩ : Geometry).selection) :=
  ⟨(c7_delete_vtx_amended ⟨[(0, 0, 0), (0, 0, 0), (0, 0, 0)], [⟨0, 1, 2⟩], [2]⟩
      0 (by decide)).2.2.1 (by decide),
   (c7_delete_vtx_amended ⟨[(0, 0, 0), (0, 0, 0)], [], [1]⟩
      1 (by decide)).2.2.2 (by decide)⟩

/-- Padding to a 4-byte boundary makes the padded length a multiple of 4. -/
theorem pad4_mod (n : ℕ) : (n + pad4 n) % 4 = 0 := by
  simp [pad4]; omega

/-- The GLB output after the 20 header and JSON-chunk-header bytes: the
JSON bytes, the space padding, and the optional BIN chunk. -/
theorem serializeGLB_drop20 (json bin : List ℕ) :
    (serializeGLB json bin).drop 20 =
      json ++ (List.replicate (pad4 json.length) 0x20 ++
        (if 0 < bin.length then
          u32le (bin.length + pad4 bin.length) ++ ([0x42, 0x49, 0x4E, 0x00] ++
            (bin ++ List.replicate (pad4 bin.length) 0x00))
        else [])) := by
  simp [serializeGLB, u32le, List.append_assoc]

/-- Total byte length of the GLB output. -/
theorem serializeGLB_length (json bin : List ℕ) :
    (serializeGLB json bin).length =
      12 + 8 + (json.length + pad4 json.length) +
        (if 0 < bin.length then 8 + (bin.length + pad4 bin.length) else 0) := by
  simp [serializeGLB, u32le, apply_ite List.length]
  split <;> omega

/-- The GLB output after the header, the whole JSON chunk and its padding:
exactly the optional BIN chunk. -/
theorem serializeGLB_dropPad (json bin : List ℕ) :
    (serializeGLB json bin).drop (20 + json.length + pad4 json.length) =
      (if 0 < bin.length then
        u32le (bin.length + pad4 bin.length) ++ ([0x42, 0x49, 0x4E, 0x00] ++
          (bin ++ List.replicate (pad4 bin.length) 0x00))
      else []) := by
  rw [show 20 + json.length + pad4 json.length =
    20 + (json.length + pad4 json.length) by omega]
  rw [← List.drop_drop, serializeGLB_drop20]
  rw [← List.drop_drop, List.drop_left]
  rw [List.drop_left' (List.length_replicate _ _)]

/-- C8: for every document state (any serialized-JSON byte list) and binary
blob, the GLB output starts with the four ASCII bytes glTF, then u32
little-endian 2, then a u32 total length equal to the byte length of the
whole output; the total is 12 + 8 + padded JSON length, plus 8 + padded BIN
length exactly when the blob is non-empty; both padded chunk lengths are
multiples of 4; the JSON chunk length field, JSON magic, JSON bytes and
0x20 padding sit at their fixed offsets; and when the blob is non-empty the
BIN chunk length field, the BIN magic with its NUL byte, the blob and its
0x00 padding follow. -/
theorem c8_glb_framing (json bin : List ℕ) :
    ((serializeGLB json bin).take 4 = [0x67, 0x6C, 0x54, 0x46] ∧
     ((serializeGLB json bin).drop 4).take 4 = u32le 2 ∧
     ((serializeGLB json bin).drop 8).take 4 =
       u32le (serializeGLB json bin).length ∧
     (serializeGLB json bin).length =
       12 + 8 + (json.length + pad4 json.length) +
         (if 0 < bin.length then 8 + (bin.length + pad4 bin.length) else 0) ∧
     (json.length + pad4 json.length) % 4 = 0 ∧
     (bin.length + pad4 bin.length) % 4 = 0 ∧
     ((serializeGLB json bin).drop 12).take 4 =
       u32le (json.length + pad4 json.length) ∧
     ((serializeGLB json bin).drop 16).take 4 = [0x4A, 0x53, 0x4F, 0x4E] ∧
     ((serializeGLB json bin).drop 20).take json.length = json ∧
     ((serializeGLB json bin).drop (20 + json.length)).take (pad4 json.length) =
       List.replicate (pad4 json.length) 0x20) ∧
    (0 < bin.length →
      ((serializeGLB json bin).drop (20 + json.length + pad4 json.length)).take 4 =
        u32le (bin.length + pad4 bin.length) ∧
      ((serializeGLB json bin).drop (24 + json.length + pad4 json.length)).take 4 =
        [0x42, 0x49, 0x4E, 0x00] ∧
      ((serializeGLB json bin).drop (28 + json.length + pad4 json.length)).take
        bin.length = bin ∧
      (serializeGLB json bin).drop
        (28 + json.length + pad4 json.length + bin.length) =
        List.replicate (pad4 bin.length) 0x00) := by
  constructor
  · refine ⟨rfl, rfl, ?_, serializeGLB_length json bin, pad4_mod _, pad4_mod _,
      rfl, rfl, ?_, ?_⟩
    · rw [serializeGLB_length]; rfl
    · rw [serializeGLB_drop20, List.take_left]
    · rw [← List.drop_drop, serializeGLB_drop20, List.drop_left]
      exact List.take_left' (List.length_replicate _ _)
  · intro hb
    have hd := serializeGLB_dropPad json bin
    rw [if_pos hb] at hd
    have hu : (u32le (bin.length + pad4 bin.length)).length = 4 := rfl
    have hm : ([0x42, 0x49, 0x4E, 0x00] : List ℕ).length = 4 := rfl
    refine ⟨?_, ?_, ?_, ?_⟩
    · rw [hd]; rfl
    · rw [show 24 + json.length + pad4 json.length =
        20 + json.length + pad4 json.length + 4 by omega]
      rw [← List.drop_drop, hd, List.drop_left' hu]
      rfl
    · rw [show 28 + json.length + pad4 json.length =
        (20 + json.length + pad4 json.length + 4) + 4 by omega]
      rw [← List.drop_drop, ← List.drop_drop, hd, List.drop_left' hu,
        List.drop_left' hm]
      exact List.take_left _ _
    · rw [show 28 + json.length + pad4 json.length + bin.length =
        ((20 + json.length + pad4 json.length + 4) + 4) + bin.length by omega]
      rw [← List.drop_drop, ← List.drop_drop, ← List.drop_drop, hd,
        List.drop_left' hu, List.drop_left' hm, List.drop_left]

/-- C8 witness: the BIN-chunk facts at the concrete JSON bytes of an empty
object and a one-byte blob. -/
theorem c8_glb_framing_witness :
    ((serializeGLB [123, 125] [9]).drop
      (20 + ([123, 125] : List ℕ).length + pad4 ([123, 125] : List ℕ).length)).take 4 =
      u32le (([9] : List ℕ).length + pad4 ([9] : List ℕ).length) ∧
    ((serializeGLB [123, 125] [9]).drop
      (24 + ([123, 125] : List ℕ).length + pad4 ([123, 125] : List ℕ).length)).take 4 =
      [0x42, 0x49, 0x4E, 0x00] ∧
    ((serializeGLB [123, 125] [9]).drop
      (28 + ([123, 125] : List ℕ).length + pad4 ([123, 125] : List ℕ).length)).take
      ([9] : List ℕ).length = [9] ∧
    (serializeGLB [123, 125] [9]).drop
      (28 + ([123, 125] : List ℕ).length + pad4 ([123, 125] : List ℕ).length +
        ([9] : List ℕ).length) =
      List.replicate (pad4 ([9] : List ℕ).length) 0x00 :=
  (c8_glb_framing [123, 125] [9]).2 (by decide)

/-- C10 witness: on a one-vertex one-triangle geometry, deleting vertex 3
or triangle 3 panics, while deleting vertex 0 succeeds. -/
theorem c10_delete_unchecked_witness :
    ffiStep (.geometryDeleteVtx 0 3)
      ⟨[⟨[(0, 0, 0)], [⟨0, 0, 0⟩], []⟩], [], [[], [], [], []], none, []⟩ = none ∧
    ffiStep (.geometryDeleteTri 0 3)
      ⟨[⟨[(0, 0, 0)], [⟨0, 0, 0⟩], []⟩], [], [[], [], [], []], none, []⟩ = none ∧
    ffiStep (.geometryDeleteVtx 0 0)
      ⟨[⟨[(0, 0, 0)], [⟨0, 0, 0⟩], []⟩], [], [[], [], [], []], none, []⟩ =
      some (.ok .unit,
        updGeom ⟨[⟨[(0, 0, 0)], [⟨0, 0, 0⟩], []⟩], [], [[], [], [], []], none, []⟩
          0 (fun g => g.delete_vtx 0)) :=
  ⟨(c10_delete_unchecked
      ⟨[⟨[(0, 0, 0)], [⟨0, 0, 0⟩], []⟩], [], [[], [], [], []], none, []⟩
      0 3 3 (by decide)).1 (by decide),
   (c10_delete_unchecked
      ⟨[⟨[(0, 0, 0)], [⟨0, 0, 0⟩], []⟩], [], [[], [], [], []], none, []⟩
      0 3 3 (by decide)).2.1 (by decide),
   (c10_delete_unchecked
      ⟨[⟨[(0, 0, 0)], [⟨0, 0, 0⟩], []⟩], [], [[], [], [], []], none, []⟩
      0 0 3 (by decide)).2.2 (by decide)⟩

end Paraforge
